import Mathlib

/-!
# Multi-agent text-to-SQL pipeline: a shallow embedding

This file embeds the orchestration core of the multi-agent text-to-SQL
repository in Lean 4 and proves the specification's claims about it.

The embedding follows the Python sources:

* `src/models/state.py`        → `GraphState`
* `src/graph/helpers.py`       → `check_relevance`, `should_retry`, `should_visualize`
* `src/agents/guardrails.py`   → `guardrails_agent`
* `src/agents/sql_generator.py`→ `sql_generation_agent`
* `src/agents/sql_executor.py` → `execute_sql`
* `src/agents/error_corrector.py` → `error_correction_agent`
* `src/agents/analyzer.py`     → `analysis_agent`
* `src/agents/viz_decision.py` → `decide_visualization_agent`
* `src/agents/visualizer.py`   → `visualization_agent`
* `src/graph/workflow.py` + `src/graph/streaming.py` → `step`, `run`, `runTrace`, `initState`
* `src/config.py`              → `MAX_SQL_RETRY_ATTEMPTS`

The LLM backend and the SQLite engine are external collaborators; they are
modelled as oracles (structured responses passed in, and a function from a
SQL fragment to a `DbResult`).  Pandas table formatting (`df.to_string`) is
opaque text produced by the data-store side, so a successful fetch carries
its already-formatted table string.
-/

/-! ## Python string primitives

The agents use Python `str.strip`, `str.split(";")`, `str.replace` and the
`in` substring test.  They are modelled character-list by character-list so
that every definition reduces in the kernel.
-/

/-- Whitespace characters stripped by Python `str.strip()` (ASCII part). -/
def isPySpace (c : Char) : Bool :=
  c = ' ' || c = '\t' || c = '\n' || c = '\r' || c = '\x0b' || c = '\x0c'

/-- Python `str.strip()`: drop leading and trailing whitespace. -/
def pyStrip (s : String) : String :=
  String.mk (((s.data.dropWhile isPySpace).reverse.dropWhile isPySpace).reverse)

/-- Split a character list on a separator character.  Mirrors Python
`str.split(sep)` for a one-character separator: `n` separators give `n+1`
pieces, empty pieces included. -/
def splitOnChar (sep : Char) (s : List Char) : List (List Char) :=
  s.foldr
    (fun c acc =>
      if c = sep then [] :: acc
      else
        match acc with
        | [] => [[c]]
        | g :: gs => (c :: g) :: gs)
    [[]]

/-- Fuel-driven worker for `pyReplace` (Python left-to-right non-overlapping
`str.replace`). -/
def replaceFuel (pat rep : List Char) : Nat → List Char → List Char
  | 0, s => s
  | _ + 1, [] => []
  | fuel + 1, c :: cs =>
    if pat.isPrefixOf (c :: cs) then
      rep ++ replaceFuel pat rep fuel ((c :: cs).drop pat.length)
    else
      c :: replaceFuel pat rep fuel cs

/-- Python `s.replace(pat, rep)` for a non-empty pattern. -/
def pyReplace (s pat rep : String) : String :=
  if pat.data = [] then s
  else String.mk (replaceFuel pat.data rep.data s.data.length s.data)

/-- Python `sub in s` substring test. -/
def containsSub (pat : List Char) : List Char → Bool
  | [] => pat.isEmpty
  | c :: cs => pat.isPrefixOf (c :: cs) || containsSub pat cs

/-- Python `sub in s` on strings. -/
def pyContains (s sub : String) : Bool :=
  containsSub sub.data s.data

/-- Python `"sep".join(blocks)`. -/
def joinWith (sep : String) : List String → String
  | [] => ""
  | [x] => x
  | x :: xs => x ++ sep ++ joinWith sep xs

/-- The fence stripping done after each LLM SQL answer
(`sql_generator.py` lines 84–85, `error_corrector.py` lines 103–104):
`strip`, remove every ```` ```sql ````, remove every ```` ``` ````, `strip`. -/
def stripSqlFences (q : String) : String :=
  pyStrip (pyReplace (pyReplace (pyStrip q) "```sql" "") "```" "")

/-! ## State (`src/models/state.py`)

`GraphState` fields and their defaults, as declared in `state.py` and as
initialised per turn in `streaming.py` (`initial_state`).  The inherited
`messages` list is never read or written by any agent or routing predicate
and is omitted.  `curr_iteration` is typed `int` and only ever set to `0`
or incremented, so it is a `Nat` here.
-/

structure GraphState where
  is_question_relavant : Bool
  user_query : String
  sql_query_generated : String
  result_for_sql_query : String
  final_answer : String
  error_message : String
  curr_iteration : Nat
  needs_plotly_figure : Bool
  type_of_plotly_figure : String
  plotly_figure_json_string : String
deriving DecidableEq, Repr

/-- The per-turn initial state built in `streaming.py`
(`process_question_stream`, `initial_state`). -/
def initState (user_query : String) : GraphState where
  is_question_relavant := false
  user_query := user_query
  sql_query_generated := ""
  result_for_sql_query := ""
  final_answer := ""
  error_message := ""
  curr_iteration := 0
  needs_plotly_figure := false
  type_of_plotly_figure := "none"
  plotly_figure_json_string := ""

/-- Source: `src/config.py` line 53, maximum number of retry attempts for SQL error
correction. -/
def MAX_SQL_RETRY_ATTEMPTS : Nat := 3

/-! ## Routing predicates (`src/graph/helpers.py`) -/

/-- Source: `helpers.py` lines 10–34.  Python truthiness of `state.get("final_answer")`
is non-emptiness of the string. -/
def check_relevance (s : GraphState) : String :=
  if s.final_answer ≠ "" then "end"
  else if s.is_question_relavant then "relevant"
  else "end"

/-- Source: `helpers.py` lines 37–63.  The retry bound `3` is hardcoded there. -/
def should_retry (s : GraphState) : String :=
  if s.error_message ≠ "" then
    if s.curr_iteration ≤ 3 then "retry" else "end"
  else "success"

/-- Source: `helpers.py` lines 66–82. -/
def should_visualize (s : GraphState) : String :=
  if s.needs_plotly_figure && s.type_of_plotly_figure ≠ "none" then "visualize"
  else "skip"

/-! ## Structured LLM responses (`src/models/responses.py`)

Each stage's backend call returns one of these; in the embedding the
response is an oracle argument to the stage.
-/

structure GuardrailsResponse where
  is_question_relavant : Bool
  is_greeting : Bool
deriving DecidableEq, Repr

structure SQLGenerationResponse where
  sql_query : String
deriving DecidableEq, Repr

structure ErrorCorrectionResponse where
  corrected_sql_query : String
deriving DecidableEq, Repr

structure AnalysisResponse where
  natural_language_answer : String
  key_insights : List String
  needs_visualization : Bool
deriving DecidableEq, Repr

structure VisualizationDecisionResponse where
  needs_visualization : Bool
  visualization_type : String
deriving DecidableEq, Repr

/-! ## Guardrails stage (`src/agents/guardrails.py`) -/

/-- The fixed greeting reply (`guardrails.py` lines 85–87). -/
def greetingReply : String :=
  "Hello! How can I assist you with e-commerce data today?"

/-- The fixed out-of-scope refusal (`guardrails.py` lines 92–95). -/
def refusalReply : String :=
  "I'm sorry, but your question is outside the scope of the e-commerce database I have access to. Please ask something related to products, users, orders, inventory, or sales analytics."

/-- Source: `guardrails.py` lines 13–98: store the classification, then short-circuit
greetings and out-of-scope questions with fixed replies. -/
def guardrails_agent (resp : GuardrailsResponse) (s : GraphState) : GraphState :=
  let s1 := { s with is_question_relavant := resp.is_question_relavant }
  if resp.is_greeting then { s1 with final_answer := greetingReply }
  else if !s1.is_question_relavant then { s1 with final_answer := refusalReply }
  else s1

/-! ## SQL generation stage (`src/agents/sql_generator.py`) -/

/-- Source: `sql_generator.py` lines 14–91: write the fence-stripped generated query
and increment the iteration counter. -/
def sql_generation_agent (resp : SQLGenerationResponse) (s : GraphState) : GraphState :=
  { s with
    sql_query_generated := stripSqlFences resp.sql_query
    curr_iteration := s.curr_iteration + 1 }

/-! ## Execution stage (`src/agents/sql_executor.py`)

The data store is an oracle `db : String → DbResult`.  A fragment either
returns rows (carried as the pandas-formatted table text), returns no rows,
raises a `sqlite3.Error`, or raises some other exception.
-/

inductive DbResult where
  | rows (formatted : String)
  | noRows
  | sqliteError (msg : String)
  | otherError (msg : String)
deriving DecidableEq, Repr

/-- Source: `sql_executor.py` line 41: split on `;`, strip, drop empty fragments. -/
def splitQueries (sql : String) : List String :=
  (((splitOnChar ';' sql.data).map String.mk).map pyStrip).filter (fun q => q ≠ "")

/-- The per-fragment loop of `sql_executor.py` lines 46–73: format each
fragment's block (labelled when `multi`), aborting with the formatted
exception message at the first failing fragment. -/
def runQueries (db : String → DbResult) (multi : Bool) :
    Nat → List String → Except String (List String)
  | _, [] => .ok []
  | idx, q :: rest =>
    match db q with
    | .rows formatted =>
      let block :=
        if multi then
          "Query " ++ toString (idx + 1) ++ ":\n" ++ q ++ "\n\nResult:\n" ++ formatted
        else formatted
      match runQueries db multi (idx + 1) rest with
      | .ok blocks => .ok (block :: blocks)
      | .error e => .error e
    | .noRows =>
      let block :=
        if multi then
          "Query " ++ toString (idx + 1) ++ ":\n" ++ q ++ "\n\nResult: No rows returned"
        else "No results found."
      match runQueries db multi (idx + 1) rest with
      | .ok blocks => .ok (block :: blocks)
      | .error e => .error e
    | .sqliteError m => .error ("SQL Execution Error: " ++ m)
    | .otherError m => .error ("Unexpected Error: " ++ m)

/-- The `"=" * 80` of `sql_executor.py` line 80. -/
def eqLine : String := String.mk (List.replicate 80 '=')

/-- The outcome of the `try` body of `sql_executor.py` lines 34–73 on a
given statement string: the per-fragment blocks, or the first exception. -/
def execResult (db : String → DbResult) (sql : String) : Except String (List String) :=
  runQueries db (decide (1 < (splitQueries sql).length)) 0 (splitQueries sql)

/-- Source: `sql_executor.py` lines 15–104.  Note line 80 reads
`"\n\n" + "=" * 80 + "\n\n".join(all_results)`: by Python operator
precedence the blocks are joined with `"\n\n"` alone and the `"="` line is
prepended once to the whole result. -/
def execute_sql (db : String → DbResult) (s : GraphState) : GraphState :=
  match execResult db s.sql_query_generated with
  | .ok all_results =>
    if all_results ≠ [] then
      { s with
        result_for_sql_query := "\n\n" ++ eqLine ++ joinWith "\n\n" all_results
        error_message := "" }
    else
      { s with
        result_for_sql_query := "Query executed successfully but returned no results."
        error_message := "" }
  | .error msg =>
    { s with error_message := msg, result_for_sql_query := "" }

/-! ## Error correction stage (`src/agents/error_corrector.py`) -/

/-- The terminal apology of `error_corrector.py` lines 40–44. -/
def apologyText (error_message : String) : String :=
  "I apologize, but I'm unable to generate a correct SQL query for your question after " ++
    toString MAX_SQL_RETRY_ATTEMPTS ++ " attempts. " ++
    "The error encountered was: " ++ error_message ++ "\n\n" ++
    "Please try rephrasing your question or contact support for assistance."

/-- Source: `error_corrector.py` lines 15–111: if the iteration counter already
exceeds `MAX_SQL_RETRY_ATTEMPTS`, write the apology and return without
invoking the backend; otherwise overwrite the query with the fence-stripped
correction, clear the error, and increment the counter. -/
def error_correction_agent (resp : ErrorCorrectionResponse) (s : GraphState) : GraphState :=
  if s.curr_iteration > MAX_SQL_RETRY_ATTEMPTS then
    { s with final_answer := apologyText s.error_message }
  else
    { s with
      sql_query_generated := stripSqlFences resp.corrected_sql_query
      error_message := ""
      curr_iteration := s.curr_iteration + 1 }

/-! ## Analysis stage (`src/agents/analyzer.py`) -/

/-- The final-answer composition of `analyzer.py` lines 84–93: the answer,
then (when insights exist) a `**Key Insights:**` header and the insights
numbered from 1, all joined with newlines. -/
def analysisAnswer (resp : AnalysisResponse) : String :=
  joinWith "\n"
    ([resp.natural_language_answer] ++
      (if resp.key_insights ≠ [] then
        ["\n\n**Key Insights:**"] ++
          (resp.key_insights.enum.map (fun p => toString (p.1 + 1) ++ ". " ++ p.2))
      else []))

/-- Source: `analyzer.py` lines 15–98. -/
def analysis_agent (resp : AnalysisResponse) (s : GraphState) : GraphState :=
  { s with
    final_answer := analysisAnswer resp
    needs_plotly_figure := resp.needs_visualization }

/-! ## Visualization decision stage (`src/agents/viz_decision.py`) -/

/-- Source: `viz_decision.py` lines 13–85: short-circuit (no backend call) when the
result is empty, contains `"No results found"`, or an error is present;
otherwise adopt the backend's decision. -/
def decide_visualization_agent (resp : VisualizationDecisionResponse) (s : GraphState) :
    GraphState :=
  if s.result_for_sql_query = "" ||
      pyContains s.result_for_sql_query "No results found" ||
      s.error_message ≠ "" then
    { s with needs_plotly_figure := false, type_of_plotly_figure := "none" }
  else
    { s with
      needs_plotly_figure := resp.needs_visualization
      type_of_plotly_figure := resp.visualization_type }

/-! ## Visualization generation stage (`src/agents/visualizer.py`)

Everything from the prompt construction to `fig.to_json()` sits in one
`try`; the outcome of that block is the oracle.  `ok json` is a completed
`fig.to_json()`; the other three constructors are the exception sources the
`except` clause catches (backend failure, failure executing the generated
code, and the generated code not binding `fig`).
-/

inductive VizOutcome where
  | ok (json : String)
  | llmFailure (msg : String)
  | execFailure (msg : String)
  | noFig
deriving DecidableEq, Repr

/-- Source: `visualizer.py` lines 16–119. -/
def visualization_agent (outcome : VizOutcome) (s : GraphState) : GraphState :=
  match outcome with
  | .ok json => { s with plotly_figure_json_string := json }
  | .llmFailure _ => { s with plotly_figure_json_string := "", needs_plotly_figure := false }
  | .execFailure _ => { s with plotly_figure_json_string := "", needs_plotly_figure := false }
  | .noFig => { s with plotly_figure_json_string := "", needs_plotly_figure := false }

/-! ## The workflow graph (`src/graph/workflow.py`) -/

inductive Node where
  | guardrails
  | sqlGen
  | execute
  | correct
  | analyze
  | vizDecide
  | vizGen
  | done
deriving DecidableEq, Repr

/-- The conditional-edge map of `workflow.py` lines 79–83:
`{"relevant": "sql_generation_agent", "end": END}`. -/
def route_after_guardrails (s : GraphState) : Node :=
  if check_relevance s = "relevant" then .sqlGen else .done

/-- The conditional-edge map of `workflow.py` lines 89–97: `"success"` and
`"end"` both go to `analysis_agent`, `"retry"` goes to
`error_correction_agent`. -/
def route_after_execute (s : GraphState) : Node :=
  if should_retry s = "retry" then .correct else .analyze

/-- The conditional-edge map of `workflow.py` lines 106–110:
`{"visualize": "visualization_agent", "skip": END}`. -/
def route_after_vizDecide (s : GraphState) : Node :=
  if should_visualize s = "visualize" then .vizGen else .done

/-- The oracles for one turn: the structured response each backend call
returns (the correction response may differ per attempt, keyed by the
iteration counter at entry), the outcome of the visualization `try` block,
and the data store. -/
structure Oracles where
  guardrails : GuardrailsResponse
  sqlGen : SQLGenerationResponse
  correct : Nat → ErrorCorrectionResponse
  analyze : AnalysisResponse
  vizDecide : VisualizationDecisionResponse
  viz : VizOutcome
  db : String → DbResult

/-- One node execution followed by its outgoing (conditional) edge, per
`workflow.py`. -/
def step (o : Oracles) : Node → GraphState → Node × GraphState
  | .guardrails, s =>
    let s' := guardrails_agent o.guardrails s
    (route_after_guardrails s', s')
  | .sqlGen, s => (.execute, sql_generation_agent o.sqlGen s)
  | .execute, s =>
    let s' := execute_sql o.db s
    (route_after_execute s', s')
  | .correct, s => (.execute, error_correction_agent (o.correct s.curr_iteration) s)
  | .analyze, s => (.vizDecide, analysis_agent o.analyze s)
  | .vizDecide, s =>
    let s' := decide_visualization_agent o.vizDecide s
    (route_after_vizDecide s', s')
  | .vizGen, s => (.done, visualization_agent o.viz s)
  | .done, s => (.done, s)

/-- Drive the graph for at most `fuel` node executions (`Node.done` is
absorbing). -/
def run (o : Oracles) : Nat → Node × GraphState → Node × GraphState
  | 0, ns => ns
  | fuel + 1, ns =>
    if ns.1 = Node.done then ns else run o fuel (step o ns.1 ns.2)

/-- The list of nodes executed, in order, during `run o fuel ns`. -/
def runTrace (o : Oracles) : Nat → Node × GraphState → List Node
  | 0, _ => []
  | fuel + 1, ns =>
    if ns.1 = Node.done then [] else ns.1 :: runTrace o fuel (step o ns.1 ns.2)

/-- A data-store behaviour in which executing any fragment raises. -/
def dbFails : DbResult → Bool
  | .rows _ => false
  | .noRows => false
  | .sqliteError _ => true
  | .otherError _ => true

/-- A concrete turn's oracles in which the question passes the guardrails
and the data store raises on every fragment. -/
def oracleAllFail : Oracles where
  guardrails := ⟨true, false⟩
  sqlGen := ⟨"SELECT name FROM order_item"⟩
  correct := fun _ => ⟨"SELECT name FROM order_items"⟩
  analyze := ⟨"The query could not be executed against the database.", [], false⟩
  vizDecide := ⟨false, "none"⟩
  viz := .noFig
  db := fun _ => .sqliteError "no such table: order_item"

/-- A concrete turn's oracles in which the guardrails classify the input as
a greeting. -/
def oracleGreeting : Oracles :=
  { oracleAllFail with guardrails := ⟨false, true⟩ }

/-- A concrete turn's oracles in which the guardrails classify the input as
out of scope (not a greeting, not relevant). -/
def oracleOutOfScope : Oracles :=
  { oracleAllFail with guardrails := ⟨false, false⟩ }

/-- A concrete data store for the two-statement example: each of the two
statements returns one row, anything else raises. -/
def dbSelect12 : String → DbResult := fun q =>
  if q = "SELECT 1" then .rows "1"
  else if q = "SELECT 2" then .rows "2"
  else .sqliteError ("no such statement: " ++ q)

/-! ## Basic string lemmas -/

lemma data_append (s t : String) : (s ++ t).data = s.data ++ t.data := by
  cases s; cases t; rfl

lemma append_ne_empty_left (s t : String) (h : s.data ≠ []) : s ++ t ≠ "" := by
  intro hc
  apply h
  have := congrArg String.data hc
  rw [data_append] at this
  exact (List.append_eq_nil.mp this).1

/-! ## Lemmas about the execution stage -/

lemma runQueries_error_ne_empty (db : String → DbResult) (multi : Bool) :
    ∀ (qs : List String) (idx : Nat) (m : String),
      runQueries db multi idx qs = .error m → m ≠ "" := by
  intro qs
  induction qs with
  | nil => intro idx m h; simp [runQueries] at h
  | cons q rest ih =>
    intro idx m h
    rw [runQueries] at h
    cases hq : db q with
    | rows f =>
      rw [hq] at h
      cases hr : runQueries db multi (idx + 1) rest with
      | ok blocks => simp [hr] at h
      | error e =>
        simp only [hr] at h
        cases h
        exact ih (idx + 1) m hr
    | noRows =>
      rw [hq] at h
      cases hr : runQueries db multi (idx + 1) rest with
      | ok blocks => simp [hr] at h
      | error e =>
        simp only [hr] at h
        cases h
        exact ih (idx + 1) m hr
    | sqliteError em =>
      rw [hq] at h
      cases h
      exact append_ne_empty_left _ _ (by decide)
    | otherError em =>
      rw [hq] at h
      cases h
      exact append_ne_empty_left _ _ (by decide)

lemma execResult_error_ne_empty {db : String → DbResult} {sql m : String}
    (h : execResult db sql = .error m) : m ≠ "" :=
  runQueries_error_ne_empty db _ _ _ _ h

/-- Fields other than the result and the error are untouched by the
execution stage. -/
lemma execute_sql_fields (db : String → DbResult) (s : GraphState) :
    (execute_sql db s).sql_query_generated = s.sql_query_generated ∧
    (execute_sql db s).curr_iteration = s.curr_iteration ∧
    (execute_sql db s).final_answer = s.final_answer ∧
    (execute_sql db s).user_query = s.user_query ∧
    (execute_sql db s).is_question_relavant = s.is_question_relavant ∧
    (execute_sql db s).needs_plotly_figure = s.needs_plotly_figure ∧
    (execute_sql db s).type_of_plotly_figure = s.type_of_plotly_figure ∧
    (execute_sql db s).plotly_figure_json_string = s.plotly_figure_json_string := by
  unfold execute_sql
  cases execResult db s.sql_query_generated with
  | ok rs =>
    by_cases h : rs ≠ [] <;> simp [h]
  | error m => simp

lemma execute_sql_iter (db : String → DbResult) (s : GraphState) :
    (execute_sql db s).curr_iteration = s.curr_iteration :=
  (execute_sql_fields db s).2.1

lemma execute_sql_sql (db : String → DbResult) (s : GraphState) :
    (execute_sql db s).sql_query_generated = s.sql_query_generated :=
  (execute_sql_fields db s).1

/-- On a failed execution the error is the exception text and the result is
cleared. -/
lemma execute_sql_of_error {db : String → DbResult} {s : GraphState} {m : String}
    (h : execResult db s.sql_query_generated = .error m) :
    execute_sql db s = { s with error_message := m, result_for_sql_query := "" } := by
  unfold execute_sql
  rw [h]

/-- On a successful execution the stage writes the (possibly fallback)
result text and clears the error. -/
lemma execute_sql_of_ok {db : String → DbResult} {s : GraphState} {rs : List String}
    (h : execResult db s.sql_query_generated = .ok rs) :
    execute_sql db s =
      if rs ≠ [] then
        { s with
          result_for_sql_query := "\n\n" ++ eqLine ++ joinWith "\n\n" rs
          error_message := "" }
      else
        { s with
          result_for_sql_query := "Query executed successfully but returned no results."
          error_message := "" } := by
  unfold execute_sql
  rw [h]

/-- The success/failure dichotomy of the execution stage: the error field is
empty exactly when the result field is non-empty. -/
lemma execute_sql_error_iff (db : String → DbResult) (s : GraphState) :
    ((execute_sql db s).error_message = "" ↔ (execute_sql db s).result_for_sql_query ≠ "") := by
  cases h : execResult db s.sql_query_generated with
  | ok rs =>
    rw [execute_sql_of_ok h]
    by_cases hr : rs ≠ []
    · rw [if_pos hr]
      constructor
      · intro _
        exact append_ne_empty_left ("\n\n" ++ eqLine) _ (by decide)
      · intro _; rfl
    · rw [if_neg hr]
      constructor
      · intro _
        show "Query executed successfully but returned no results." ≠ ""
        decide
      · intro _; rfl
  | error m =>
    rw [execute_sql_of_error h]
    constructor
    · intro he
      exact absurd he (execResult_error_ne_empty h)
    · intro hr
      exact absurd rfl hr

/-! ## Lemmas about the routing predicates -/

lemma should_retry_of_no_error {s : GraphState} (h : s.error_message = "") :
    should_retry s = "success" := by
  simp [should_retry, h]

lemma should_retry_of_error_low {s : GraphState} (h : s.error_message ≠ "")
    (h2 : s.curr_iteration ≤ 3) : should_retry s = "retry" := by
  simp [should_retry, h, h2]

lemma should_retry_of_error_high {s : GraphState} (h : s.error_message ≠ "")
    (h2 : 3 < s.curr_iteration) : should_retry s = "end" := by
  simp [should_retry, h, Nat.not_le_of_lt h2]

lemma route_after_execute_of_no_error {s : GraphState} (h : s.error_message = "") :
    route_after_execute s = .analyze := by
  simp [route_after_execute, should_retry_of_no_error h]

lemma route_after_execute_of_error_low {s : GraphState} (h : s.error_message ≠ "")
    (h2 : s.curr_iteration ≤ 3) : route_after_execute s = .correct := by
  simp [route_after_execute, should_retry_of_error_low h h2]

lemma route_after_execute_of_error_high {s : GraphState} (h : s.error_message ≠ "")
    (h2 : 3 < s.curr_iteration) : route_after_execute s = .analyze := by
  simp [route_after_execute, should_retry_of_error_high h h2]

/-! ## Algebra of the driver -/

lemma run_done (o : Oracles) (n : Nat) (ns : Node × GraphState) (h : ns.1 = Node.done) :
    run o n ns = ns := by
  cases n with
  | zero => rfl
  | succ n => rw [run, if_pos h]

lemma runTrace_done (o : Oracles) (n : Nat) (ns : Node × GraphState) (h : ns.1 = Node.done) :
    runTrace o n ns = [] := by
  cases n with
  | zero => rfl
  | succ n => rw [runTrace, if_pos h]

lemma run_add (o : Oracles) (m n : Nat) (ns : Node × GraphState) :
    run o (m + n) ns = run o n (run o m ns) := by
  induction m generalizing ns with
  | zero => rw [Nat.zero_add]; rfl
  | succ m ih =>
    by_cases h : ns.1 = Node.done
    · rw [run_done o (m + 1 + n) ns h, run_done o (m + 1) ns h, run_done o n ns h]
    · have heq : m + 1 + n = (m + n) + 1 := by omega
      rw [heq, run, if_neg h, run, if_neg h, ih]

lemma runTrace_add (o : Oracles) (m n : Nat) (ns : Node × GraphState) :
    runTrace o (m + n) ns = runTrace o m ns ++ runTrace o n (run o m ns) := by
  induction m generalizing ns with
  | zero => rw [Nat.zero_add]; rfl
  | succ m ih =>
    by_cases h : ns.1 = Node.done
    · rw [runTrace_done o (m + 1) ns h, run_done o (m + 1) ns h,
        runTrace_done o (m + 1 + n) ns h, runTrace_done o n ns h]
      rfl
    · have heq : m + 1 + n = (m + n) + 1 := by omega
      rw [heq, runTrace, if_neg h, runTrace, if_neg h, run, if_neg h, ih]
      rfl

/-! ## Lemmas about the other stages -/

lemma guardrails_agent_of_relevant {r : GuardrailsResponse} (s : GraphState)
    (hg : r.is_greeting = false) (hr : r.is_question_relavant = true) :
    guardrails_agent r s = { s with is_question_relavant := true } := by
  simp [guardrails_agent, hg, hr]

lemma guardrails_agent_of_greeting {r : GuardrailsResponse} (s : GraphState)
    (hg : r.is_greeting = true) :
    guardrails_agent r s =
      { s with is_question_relavant := r.is_question_relavant, final_answer := greetingReply } := by
  simp [guardrails_agent, hg]

lemma guardrails_agent_of_out_of_scope {r : GuardrailsResponse} (s : GraphState)
    (hg : r.is_greeting = false) (hr : r.is_question_relavant = false) :
    guardrails_agent r s =
      { s with is_question_relavant := false, final_answer := refusalReply } := by
  simp [guardrails_agent, hg, hr]

/-- Below the ceiling the correction stage rewrites the query, clears the
error and increments the counter. -/
lemma error_correction_agent_of_low {resp : ErrorCorrectionResponse} {s : GraphState}
    (h : s.curr_iteration ≤ MAX_SQL_RETRY_ATTEMPTS) :
    error_correction_agent resp s =
      { s with
        sql_query_generated := stripSqlFences resp.corrected_sql_query
        error_message := ""
        curr_iteration := s.curr_iteration + 1 } := by
  unfold error_correction_agent
  rw [if_neg (Nat.not_lt.mpr h)]

/-- Above the ceiling the correction stage only writes the apology. -/
lemma error_correction_agent_of_high {resp : ErrorCorrectionResponse} {s : GraphState}
    (h : MAX_SQL_RETRY_ATTEMPTS < s.curr_iteration) :
    error_correction_agent resp s = { s with final_answer := apologyText s.error_message } := by
  unfold error_correction_agent
  rw [if_pos h]

/-! ## One-step unfolding of the driver -/

lemma run_succ_of_ne (o : Oracles) (n : Nat) (nd : Node) (s : GraphState)
    (h : nd ≠ Node.done) : run o (n + 1) (nd, s) = run o n (step o nd s) := by
  rw [run, if_neg h]

lemma runTrace_succ_of_ne (o : Oracles) (n : Nat) (nd : Node) (s : GraphState)
    (h : nd ≠ Node.done) :
    runTrace o (n + 1) (nd, s) = nd :: runTrace o n (step o nd s) := by
  rw [runTrace, if_neg h]

/-! ## Fuel-counted segments of a turn

The tail of a turn after the Execute ⇄ Correct phase, and the phase itself,
bounded by induction on the remaining correction budget.
-/

/-- From the visualization decision the run terminates in at most two more
node executions and never executes the Execution stage again. -/
lemma seg_vizDecide (o : Oracles) (s : GraphState) :
    (run o 2 (Node.vizDecide, s)).1 = Node.done ∧
      (runTrace o 2 (Node.vizDecide, s)).count Node.execute = 0 := by
  by_cases h : should_visualize (decide_visualization_agent o.vizDecide s) = "visualize"
  · have hstep : step o Node.vizDecide s =
        (Node.vizGen, decide_visualization_agent o.vizDecide s) := by
      show (route_after_vizDecide _, _) = _
      rw [route_after_vizDecide, if_pos h]
    constructor
    · show (run o 1 (step o Node.vizDecide s)).1 = Node.done
      rw [hstep]
      rfl
    · show (Node.vizDecide :: runTrace o 1 (step o Node.vizDecide s)).count Node.execute = 0
      rw [hstep]
      rfl
  · have hstep : step o Node.vizDecide s =
        (Node.done, decide_visualization_agent o.vizDecide s) := by
      show (route_after_vizDecide _, _) = _
      rw [route_after_vizDecide, if_neg h]
    constructor
    · show (run o 1 (step o Node.vizDecide s)).1 = Node.done
      rw [hstep]
      rfl
    · show (Node.vizDecide :: runTrace o 1 (step o Node.vizDecide s)).count Node.execute = 0
      rw [hstep]
      rfl

/-- From the analysis stage the run terminates in at most three more node
executions and never executes the Execution stage again. -/
lemma seg_analyze (o : Oracles) (s : GraphState) :
    (run o 3 (Node.analyze, s)).1 = Node.done ∧
      (runTrace o 3 (Node.analyze, s)).count Node.execute = 0 := by
  have h1 : run o 3 (Node.analyze, s) =
      run o 2 (Node.vizDecide, analysis_agent o.analyze s) := rfl
  have h2 : runTrace o 3 (Node.analyze, s) =
      Node.analyze :: runTrace o 2 (Node.vizDecide, analysis_agent o.analyze s) := rfl
  obtain ⟨hd, hc⟩ := seg_vizDecide o (analysis_agent o.analyze s)
  refine ⟨by rw [h1]; exact hd, ?_⟩
  rw [h2, List.count_cons]
  simp [hc]

/-- The Execute ⇄ Correct phase: entered with at most `d` corrections of
budget left (`4 ≤ curr_iteration + d`), the run reaches the terminal node
within `2*d + 4` node executions, executing the Execution stage at most
`d + 1` times. -/
lemma seg_execute (d : Nat) :
    ∀ (o : Oracles) (s : GraphState), 4 ≤ s.curr_iteration + d →
      (run o (2 * d + 4) (Node.execute, s)).1 = Node.done ∧
        (runTrace o (2 * d + 4) (Node.execute, s)).count Node.execute ≤ d + 1 := by
  induction d with
  | zero =>
    intro o s hs
    have hroute : route_after_execute (execute_sql o.db s) = Node.analyze := by
      by_cases he : (execute_sql o.db s).error_message = ""
      · exact route_after_execute_of_no_error he
      · refine route_after_execute_of_error_high he ?_
        rw [execute_sql_iter]
        omega
    have hstep : step o Node.execute s = (Node.analyze, execute_sql o.db s) := by
      show (route_after_execute (execute_sql o.db s), execute_sql o.db s) = _
      rw [hroute]
    constructor
    · show (run o 3 (step o Node.execute s)).1 = Node.done
      rw [hstep]
      exact (seg_analyze o _).1
    · show (Node.execute :: runTrace o 3 (step o Node.execute s)).count Node.execute ≤ 0 + 1
      rw [hstep, List.count_cons, (seg_analyze o _).2]
      simp
  | succ d ih =>
    intro o s hs
    have hfuel : 2 * (d + 1) + 4 = ((2 * d + 4) + 1) + 1 := by omega
    have hfuel3 : 2 * (d + 1) + 4 = (3 + (2 * d + 2)) + 1 := by omega
    by_cases he : (execute_sql o.db s).error_message = ""
    · -- success: straight to analysis, done with plenty of fuel to spare
      have hstep : step o Node.execute s = (Node.analyze, execute_sql o.db s) := by
        show (route_after_execute (execute_sql o.db s), execute_sql o.db s) = _
        rw [route_after_execute_of_no_error he]
      have hdone := (seg_analyze o (execute_sql o.db s)).1
      constructor
      · rw [hfuel3, run_succ_of_ne o _ _ _ (by decide), hstep, run_add,
          run_done o _ _ hdone]
        exact hdone
      · rw [hfuel3, runTrace_succ_of_ne o _ _ _ (by decide), hstep, runTrace_add,
          runTrace_done o _ _ hdone, List.append_nil, List.count_cons_self,
          (seg_analyze o (execute_sql o.db s)).2]
        omega
    · by_cases hi : s.curr_iteration ≤ 3
      · -- failure under the ceiling: one more correction round, then recurse
        have hstep : step o Node.execute s = (Node.correct, execute_sql o.db s) := by
          show (route_after_execute (execute_sql o.db s), execute_sql o.db s) = _
          rw [route_after_execute_of_error_low he (by rw [execute_sql_iter]; exact hi)]
        obtain ⟨s2, hstep2, hs2⟩ :
            ∃ s2 : GraphState,
              step o Node.correct (execute_sql o.db s) = (Node.execute, s2) ∧
                s2.curr_iteration = s.curr_iteration + 1 := by
          refine ⟨error_correction_agent (o.correct (execute_sql o.db s).curr_iteration)
            (execute_sql o.db s), rfl, ?_⟩
          rw [error_correction_agent_of_low (by rw [execute_sql_iter]; exact hi)]
          show (execute_sql o.db s).curr_iteration + 1 = _
          rw [execute_sql_iter]
        obtain ⟨ihd, ihc⟩ := ih o s2 (by omega)
        constructor
        · rw [hfuel, run_succ_of_ne o _ _ _ (by decide), hstep,
            run_succ_of_ne o _ _ _ (by decide), hstep2]
          exact ihd
        · rw [hfuel, runTrace_succ_of_ne o _ _ _ (by decide), hstep,
            runTrace_succ_of_ne o _ _ _ (by decide), hstep2, List.count_cons_self,
            List.count_cons_of_ne (by decide : Node.execute ≠ Node.correct)]
          omega
      · -- failure above the ceiling: give up, analyze with the error present
        have hstep : step o Node.execute s = (Node.analyze, execute_sql o.db s) := by
          show (route_after_execute (execute_sql o.db s), execute_sql o.db s) = _
          rw [route_after_execute_of_error_high he (by rw [execute_sql_iter]; omega)]
        have hdone := (seg_analyze o (execute_sql o.db s)).1
        constructor
        · rw [hfuel3, run_succ_of_ne o _ _ _ (by decide), hstep, run_add,
            run_done o _ _ hdone]
          exact hdone
        · rw [hfuel3, runTrace_succ_of_ne o _ _ _ (by decide), hstep, runTrace_add,
            runTrace_done o _ _ hdone, List.append_nil, List.count_cons_self,
            (seg_analyze o (execute_sql o.db s)).2]
          omega

lemma guardrails_agent_iter (r : GuardrailsResponse) (s : GraphState) :
    (guardrails_agent r s).curr_iteration = s.curr_iteration := by
  unfold guardrails_agent
  by_cases hg : r.is_greeting
  · simp [hg]
  · by_cases hr : r.is_question_relavant <;> simp [hg, hr]

lemma decide_viz_fields (r : VisualizationDecisionResponse) (s : GraphState) :
    (decide_visualization_agent r s).final_answer = s.final_answer ∧
      (decide_visualization_agent r s).curr_iteration = s.curr_iteration ∧
      (decide_visualization_agent r s).result_for_sql_query = s.result_for_sql_query ∧
      (decide_visualization_agent r s).sql_query_generated = s.sql_query_generated := by
  unfold decide_visualization_agent
  split <;> exact ⟨rfl, rfl, rfl, rfl⟩

lemma visualization_agent_fields (outcome : VizOutcome) (s : GraphState) :
    (visualization_agent outcome s).final_answer = s.final_answer ∧
      (visualization_agent outcome s).curr_iteration = s.curr_iteration ∧
      (visualization_agent outcome s).result_for_sql_query = s.result_for_sql_query ∧
      (visualization_agent outcome s).sql_query_generated = s.sql_query_generated := by
  cases outcome <;> exact ⟨rfl, rfl, rfl, rfl⟩

/-- Tail of a turn from the analysis stage, tracking the final state: the
run terminates and the final answer is the analysis stage's composition. -/
lemma seg_analyze_final (o : Oracles) (s : GraphState) :
    ∃ sfin : GraphState, run o 3 (Node.analyze, s) = (Node.done, sfin) ∧
      sfin.curr_iteration = s.curr_iteration ∧
      sfin.final_answer = analysisAnswer o.analyze := by
  have h1 : run o 3 (Node.analyze, s) =
      run o 2 (Node.vizDecide, analysis_agent o.analyze s) := rfl
  by_cases h :
      should_visualize (decide_visualization_agent o.vizDecide (analysis_agent o.analyze s)) =
        "visualize"
  · have hstep : step o Node.vizDecide (analysis_agent o.analyze s) =
        (Node.vizGen, decide_visualization_agent o.vizDecide (analysis_agent o.analyze s)) := by
      show (route_after_vizDecide _, _) = _
      rw [route_after_vizDecide, if_pos h]
    refine ⟨visualization_agent o.viz
        (decide_visualization_agent o.vizDecide (analysis_agent o.analyze s)), ?_, ?_, ?_⟩
    · rw [h1, show (2 : Nat) = 1 + 1 from rfl, run_succ_of_ne o _ _ _ (by decide), hstep]
      rfl
    · rw [(visualization_agent_fields _ _).2.1, (decide_viz_fields _ _).2.1]
      rfl
    · rw [(visualization_agent_fields _ _).1, (decide_viz_fields _ _).1]
      rfl
  · have hstep : step o Node.vizDecide (analysis_agent o.analyze s) =
        (Node.done, decide_visualization_agent o.vizDecide (analysis_agent o.analyze s)) := by
      show (route_after_vizDecide _, _) = _
      rw [route_after_vizDecide, if_neg h]
    refine ⟨decide_visualization_agent o.vizDecide (analysis_agent o.analyze s), ?_, ?_, ?_⟩
    · rw [h1, show (2 : Nat) = 1 + 1 from rfl, run_succ_of_ne o _ _ _ (by decide), hstep]
      rfl
    · rw [(decide_viz_fields _ _).2.1]
      rfl
    · rw [(decide_viz_fields _ _).1]
      rfl

/-- If the first fragment of a statement raises, the whole execution body
surfaces a non-empty formatted exception message. -/
lemma execResult_error_of_head {db : String → DbResult} {q : String} {rest : List String}
    {sql : String} (hs : splitQueries sql = q :: rest) (hfail : dbFails (db q) = true) :
    ∃ m, execResult db sql = .error m ∧ m ≠ "" := by
  unfold execResult
  rw [hs]
  cases hdbq : db q with
  | rows f => rw [hdbq] at hfail; simp [dbFails] at hfail
  | noRows => rw [hdbq] at hfail; simp [dbFails] at hfail
  | sqliteError m =>
    refine ⟨"SQL Execution Error: " ++ m, ?_, append_ne_empty_left _ _ (by decide)⟩
    rw [runQueries, hdbq]
  | otherError m =>
    refine ⟨"Unexpected Error: " ++ m, ?_, append_ne_empty_left _ _ (by decide)⟩
    rw [runQueries, hdbq]

/-- Against a data store on which every fragment raises, the Execution
stage fails whenever the statement has at least one non-empty fragment. -/
lemma execute_sql_fails_of_dbFails {db : String → DbResult}
    (hdb : ∀ q, dbFails (db q) = true) (s : GraphState)
    (hq : splitQueries s.sql_query_generated ≠ []) :
    (execute_sql db s).error_message ≠ "" := by
  cases hqs : splitQueries s.sql_query_generated with
  | nil => exact absurd hqs hq
  | cons q rest =>
    obtain ⟨m, hm, hmne⟩ := execResult_error_of_head hqs (hdb q)
    rw [execute_sql_of_error hm]
    exact hmne

/-- The Execute ⇄ Correct phase when every execution attempt fails: with
exactly `d` corrections of budget left, the Execution stage runs exactly
`d + 1` more times, the final iteration counter is 4, and the final answer
is the analysis stage's composition. -/
lemma seg_execute_fail (d : Nat) :
    ∀ (o : Oracles),
      (∀ s : GraphState, splitQueries s.sql_query_generated ≠ [] →
        (execute_sql o.db s).error_message ≠ "") →
      (∀ k, splitQueries (stripSqlFences (o.correct k).corrected_sql_query) ≠ []) →
      ∀ s : GraphState, s.curr_iteration + d = 4 →
        splitQueries s.sql_query_generated ≠ [] →
        (∃ sfin : GraphState,
          run o (2 * d + 4) (Node.execute, s) = (Node.done, sfin) ∧
          sfin.curr_iteration = 4 ∧
          sfin.final_answer = analysisAnswer o.analyze) ∧
        (runTrace o (2 * d + 4) (Node.execute, s)).count Node.execute = d + 1 := by
  induction d with
  | zero =>
    intro o hdb hcor s hs hq
    have hstep : step o Node.execute s = (Node.analyze, execute_sql o.db s) := by
      show (route_after_execute (execute_sql o.db s), execute_sql o.db s) = _
      rw [route_after_execute_of_error_high (hdb s hq) (by rw [execute_sql_iter]; omega)]
    obtain ⟨sfin, hrun, hcurr, hfin⟩ := seg_analyze_final o (execute_sql o.db s)
    refine ⟨⟨sfin, ?_, ?_, hfin⟩, ?_⟩
    · rw [show 2 * 0 + 4 = 3 + 1 from rfl, run_succ_of_ne o _ _ _ (by decide), hstep, hrun]
    · rw [hcurr, execute_sql_iter]
      omega
    · rw [show 2 * 0 + 4 = 3 + 1 from rfl, runTrace_succ_of_ne o _ _ _ (by decide), hstep,
        List.count_cons_self, (seg_analyze o (execute_sql o.db s)).2]
  | succ d ih =>
    intro o hdb hcor s hs hq
    have hi : s.curr_iteration ≤ 3 := by omega
    have hfuel : 2 * (d + 1) + 4 = ((2 * d + 4) + 1) + 1 := by omega
    have hstep : step o Node.execute s = (Node.correct, execute_sql o.db s) := by
      show (route_after_execute (execute_sql o.db s), execute_sql o.db s) = _
      rw [route_after_execute_of_error_low (hdb s hq) (by rw [execute_sql_iter]; exact hi)]
    obtain ⟨s2, hstep2, hs2, hs2sql⟩ :
        ∃ s2 : GraphState,
          step o Node.correct (execute_sql o.db s) = (Node.execute, s2) ∧
            s2.curr_iteration = s.curr_iteration + 1 ∧
            s2.sql_query_generated =
              stripSqlFences
                (o.correct (execute_sql o.db s).curr_iteration).corrected_sql_query := by
      refine ⟨error_correction_agent (o.correct (execute_sql o.db s).curr_iteration)
        (execute_sql o.db s), rfl, ?_, ?_⟩
      · rw [error_correction_agent_of_low (by rw [execute_sql_iter]; exact hi)]
        show (execute_sql o.db s).curr_iteration + 1 = _
        rw [execute_sql_iter]
      · rw [error_correction_agent_of_low (by rw [execute_sql_iter]; exact hi)]
    obtain ⟨⟨sfin, hrun, hcurr, hfin⟩, hcount⟩ :=
      ih o hdb hcor s2 (by omega) (by rw [hs2sql]; exact hcor _)
    refine ⟨⟨sfin, ?_, hcurr, hfin⟩, ?_⟩
    · rw [hfuel, run_succ_of_ne o _ _ _ (by decide), hstep,
        run_succ_of_ne o _ _ _ (by decide), hstep2]
      exact hrun
    · rw [hfuel, runTrace_succ_of_ne o _ _ _ (by decide), hstep,
        runTrace_succ_of_ne o _ _ _ (by decide), hstep2, List.count_cons_self,
        List.count_cons_of_ne (by decide : Node.execute ≠ Node.correct)]
      omega

/-- Every turn terminates within 12 node executions, and the Execution
stage runs at most 4 times. -/
lemma turn_bound (o : Oracles) (uq : String) :
    (run o 12 (Node.guardrails, initState uq)).1 = Node.done ∧
      (runTrace o 12 (Node.guardrails, initState uq)).count Node.execute ≤ 4 := by
  by_cases hroute :
      route_after_guardrails (guardrails_agent o.guardrails (initState uq)) = Node.sqlGen
  · have hstep : step o Node.guardrails (initState uq) =
        (Node.sqlGen, guardrails_agent o.guardrails (initState uq)) := by
      show (route_after_guardrails _, _) = _
      rw [hroute]
    have hiter :
        (sql_generation_agent o.sqlGen (guardrails_agent o.guardrails (initState uq))).curr_iteration
          = 1 := by
      show (guardrails_agent o.guardrails (initState uq)).curr_iteration + 1 = 1
      rw [guardrails_agent_iter]
      rfl
    obtain ⟨hd, hc⟩ := seg_execute 3 o
      (sql_generation_agent o.sqlGen (guardrails_agent o.guardrails (initState uq)))
      (by rw [hiter])
    constructor
    · rw [show (12 : Nat) = (10 + 1) + 1 from rfl, run_succ_of_ne o _ _ _ (by decide), hstep,
        run_succ_of_ne o _ _ _ (by decide)]
      exact hd
    · rw [show (12 : Nat) = (10 + 1) + 1 from rfl, runTrace_succ_of_ne o _ _ _ (by decide),
        hstep, runTrace_succ_of_ne o _ _ _ (by decide),
        List.count_cons_of_ne (by decide : Node.execute ≠ Node.guardrails),
        List.count_cons_of_ne (by decide : Node.execute ≠ Node.sqlGen)]
      exact hc
  · have hdone : route_after_guardrails (guardrails_agent o.guardrails (initState uq)) =
        Node.done := by
      unfold route_after_guardrails at hroute ⊢
      by_cases h : check_relevance (guardrails_agent o.guardrails (initState uq)) = "relevant"
      · rw [if_pos h] at hroute
        exact absurd rfl hroute
      · rw [if_neg h]
    have hstep : step o Node.guardrails (initState uq) =
        (Node.done, guardrails_agent o.guardrails (initState uq)) := by
      show (route_after_guardrails _, _) = _
      rw [hdone]
    constructor
    · rw [show (12 : Nat) = 11 + 1 from rfl, run_succ_of_ne o _ _ _ (by decide), hstep,
        run_done o _ _ rfl]
    · rw [show (12 : Nat) = 11 + 1 from rfl, runTrace_succ_of_ne o _ _ _ (by decide), hstep,
        runTrace_done o _ _ rfl]
      decide

/-- A full turn in which the guardrails classify the question as relevant
and every execution attempt fails: the Execution stage runs exactly 4
times, the final iteration counter is 4, and the final answer is written by
the Analysis stage (not by the Error Correction stage). -/
lemma allFail_run (o : Oracles) (uq : String)
    (hg : o.guardrails.is_greeting = false)
    (hr : o.guardrails.is_question_relavant = true)
    (hdb : ∀ q, dbFails (o.db q) = true)
    (hsql : splitQueries (stripSqlFences o.sqlGen.sql_query) ≠ [])
    (hcor : ∀ k, splitQueries (stripSqlFences (o.correct k).corrected_sql_query) ≠ []) :
    (∃ sfin : GraphState,
      run o 12 (Node.guardrails, initState uq) = (Node.done, sfin) ∧
      sfin.curr_iteration = 4 ∧
      sfin.final_answer = analysisAnswer o.analyze) ∧
    (runTrace o 12 (Node.guardrails, initState uq)).count Node.execute = 4 := by
  have hgag : guardrails_agent o.guardrails (initState uq) =
      { initState uq with is_question_relavant := true } :=
    guardrails_agent_of_relevant _ hg hr
  have hcheck :
      check_relevance ({ initState uq with is_question_relavant := true }) = "relevant" := rfl
  have hroute :
      route_after_guardrails ({ initState uq with is_question_relavant := true }) =
        Node.sqlGen := by
    unfold route_after_guardrails
    rw [hcheck]
    rfl
  have hstep : step o Node.guardrails (initState uq) =
      (Node.sqlGen, { initState uq with is_question_relavant := true }) := by
    show (route_after_guardrails (guardrails_agent o.guardrails (initState uq)),
      guardrails_agent o.guardrails (initState uq)) = _
    rw [hgag, hroute]
  have hstep2 : step o Node.sqlGen ({ initState uq with is_question_relavant := true }) =
      (Node.execute,
        sql_generation_agent o.sqlGen ({ initState uq with is_question_relavant := true })) :=
    rfl
  have hiter :
      (sql_generation_agent o.sqlGen
        ({ initState uq with is_question_relavant := true })).curr_iteration + 3 = 4 := rfl
  obtain ⟨⟨sfin, hrun, hcurr, hfin⟩, hcount⟩ :=
    seg_execute_fail 3 o (execute_sql_fails_of_dbFails hdb) hcor _ hiter hsql
  refine ⟨⟨sfin, ?_, hcurr, hfin⟩, ?_⟩
  · rw [show (12 : Nat) = (10 + 1) + 1 from rfl, run_succ_of_ne o _ _ _ (by decide), hstep,
      run_succ_of_ne o _ _ _ (by decide), hstep2]
    exact hrun
  · rw [show (12 : Nat) = (10 + 1) + 1 from rfl, runTrace_succ_of_ne o _ _ _ (by decide), hstep,
      runTrace_succ_of_ne o _ _ _ (by decide), hstep2,
      List.count_cons_of_ne (by decide : Node.execute ≠ Node.guardrails),
      List.count_cons_of_ne (by decide : Node.execute ≠ Node.sqlGen)]
    exact hcount

/-! ## Substring lemmas for the Python `in` test -/

lemma string_append_assoc (a b c : String) : (a ++ b) ++ c = a ++ (b ++ c) := by
  cases a; cases b; cases c
  show String.mk _ = String.mk _
  rw [List.append_assoc]

lemma containsSub_nil (s : List Char) : containsSub [] s = true := by
  cases s <;> simp [containsSub, List.isPrefixOf]

lemma containsSub_self_append (p c : List Char) : containsSub p (p ++ c) = true := by
  cases p with
  | nil => exact containsSub_nil c
  | cons x xs =>
    show (List.isPrefixOf (x :: xs) ((x :: xs) ++ c) || _) = true
    rw [Bool.or_eq_true]
    exact Or.inl (List.isPrefixOf_iff_prefix.mpr (List.prefix_append _ _))

lemma containsSub_at (p c : List Char) : ∀ a : List Char, containsSub p (a ++ (p ++ c)) = true := by
  intro a
  induction a with
  | nil => exact containsSub_self_append p c
  | cons x a ih =>
    show (List.isPrefixOf p (x :: (a ++ (p ++ c))) || containsSub p (a ++ (p ++ c))) = true
    rw [ih, Bool.or_true]

lemma pyContains_mid (a b c : String) : pyContains (a ++ b ++ c) b = true := by
  unfold pyContains
  rw [data_append, data_append, List.append_assoc]
  exact containsSub_at b.data c.data a.data

lemma pyContains_suffix (a b : String) : pyContains (a ++ b) b = true := by
  unfold pyContains
  rw [data_append]
  have h : a.data ++ b.data = a.data ++ (b.data ++ []) := by rw [List.append_nil]
  rw [h]
  exact containsSub_at b.data [] a.data

lemma containsSub_append_right (p : List Char) :
    ∀ a b : List Char, containsSub p a = true → containsSub p (a ++ b) = true := by
  intro a
  induction a with
  | nil =>
    intro b h
    have hp : p = [] := by
      cases p with
      | nil => rfl
      | cons x xs => simp [containsSub, List.isEmpty] at h
    rw [hp]
    exact containsSub_nil b
  | cons x a ih =>
    intro b h
    show (List.isPrefixOf p (x :: (a ++ b)) || containsSub p (a ++ b)) = true
    rw [Bool.or_eq_true]
    have h' : (List.isPrefixOf p (x :: a) || containsSub p a) = true := h
    rw [Bool.or_eq_true] at h'
    rcases h' with h' | h'
    · left
      have hpre : p <+: x :: a := List.isPrefixOf_iff_prefix.mp h'
      exact List.isPrefixOf_iff_prefix.mpr (hpre.trans (List.prefix_append (x :: a) b))
    · right
      exact ih b h'

lemma pyContains_of_left {a pat : String} (b : String) (h : pyContains a pat = true) :
    pyContains (a ++ b) pat = true := by
  unfold pyContains at h ⊢
  rw [data_append]
  exact containsSub_append_right pat.data a.data b.data h

/-- The apology always contains the literal error text it was given. -/
lemma pyContains_apology_error (e : String) : pyContains (apologyText e) e = true := by
  unfold apologyText
  rw [string_append_assoc
    ("I apologize, but I'm unable to generate a correct SQL query for your question after " ++
      toString MAX_SQL_RETRY_ATTEMPTS ++ " attempts. " ++ "The error encountered was: " ++ e)
    "\n\n" "Please try rephrasing your question or contact support for assistance."]
  exact pyContains_mid _ e _

/-- The apology names the attempt ceiling. -/
lemma pyContains_apology_attempts (e : String) :
    pyContains (apologyText e) ("after " ++ toString MAX_SQL_RETRY_ATTEMPTS ++ " attempts") =
      true := by
  unfold apologyText
  rw [string_append_assoc
    ("I apologize, but I'm unable to generate a correct SQL query for your question after " ++
      toString MAX_SQL_RETRY_ATTEMPTS ++ " attempts. " ++ "The error encountered was: " ++ e)
    "\n\n" "Please try rephrasing your question or contact support for assistance."]
  refine pyContains_of_left _ (pyContains_of_left e ?_)
  decide

/-- The execution loop surfaces the first failing fragment's exception:
fragments before it that succeed do not mask it. -/
lemma runQueries_first_error (db : String → DbResult) (multi : Bool) (m : String) :
    ∀ (qs1 : List String) (idx : Nat) (q : String) (qs2 : List String),
      (∀ q' ∈ qs1, dbFails (db q') = false) → db q = DbResult.sqliteError m →
      runQueries db multi idx (qs1 ++ q :: qs2) = .error ("SQL Execution Error: " ++ m) := by
  intro qs1
  induction qs1 with
  | nil =>
    intro idx q qs2 _ hq
    rw [List.nil_append, runQueries, hq]
  | cons p ps ih =>
    intro idx q qs2 hok hq
    have hp : dbFails (db p) = false := hok p (List.mem_cons_self p ps)
    have hrest : ∀ q' ∈ ps, dbFails (db q') = false := fun q' hm =>
      hok q' (List.mem_cons_of_mem p hm)
    rw [List.cons_append, runQueries]
    cases hdbp : db p with
    | rows f => rw [ih (idx + 1) q qs2 hrest hq]
    | noRows => rw [ih (idx + 1) q qs2 hrest hq]
    | sqliteError m' => rw [hdbp] at hp; simp [dbFails] at hp
    | otherError m' => rw [hdbp] at hp; simp [dbFails] at hp

lemma route_after_guardrails_of_final {s : GraphState} (h : s.final_answer ≠ "") :
    route_after_guardrails s = Node.done := by
  unfold route_after_guardrails check_relevance
  rw [if_pos h]
  rfl

/-! ## The claims -/

/-- C1: for every state evaluated by the routing predicate after the
Execution stage, the router goes to Analysis when `errorMessage` is empty;
to Error Correction when `errorMessage` is non-empty and `retryCount` is at
most the ceiling (3); and to Analysis when `errorMessage` is non-empty and
`retryCount` exceeds the ceiling.  In particular `retryCount = ceiling`
still permits one more correction attempt and `retryCount = ceiling + 1`
does not. -/
theorem C1_router_after_execution (s : GraphState) :
    (s.error_message = "" → route_after_execute s = Node.analyze) ∧
    (s.error_message ≠ "" → s.curr_iteration ≤ MAX_SQL_RETRY_ATTEMPTS →
      route_after_execute s = Node.correct) ∧
    (s.error_message ≠ "" → MAX_SQL_RETRY_ATTEMPTS < s.curr_iteration →
      route_after_execute s = Node.analyze) ∧
    (s.error_message ≠ "" → s.curr_iteration = MAX_SQL_RETRY_ATTEMPTS →
      route_after_execute s = Node.correct) ∧
    (s.error_message ≠ "" → s.curr_iteration = MAX_SQL_RETRY_ATTEMPTS + 1 →
      route_after_execute s = Node.analyze) := by
  refine ⟨fun h => route_after_execute_of_no_error h,
    fun h h2 => route_after_execute_of_error_low h h2,
    fun h h2 => route_after_execute_of_error_high h h2,
    fun h h2 => route_after_execute_of_error_low h (le_of_eq h2),
    fun h h2 => route_after_execute_of_error_high h (by rw [h2]; decide)⟩

/-- Witness for C1 at concrete states: the boundary behaviour at the
ceiling and just above it, and the success route. -/
theorem C1_router_after_execution_witness :
    route_after_execute
        { initState "q" with error_message := "E", curr_iteration := 3 } = Node.correct ∧
    route_after_execute
        { initState "q" with error_message := "E", curr_iteration := 4 } = Node.analyze ∧
    route_after_execute { initState "q" with error_message := "" } = Node.analyze :=
  ⟨(C1_router_after_execution _).2.2.2.1 (by decide) rfl,
   (C1_router_after_execution _).2.2.2.2 (by decide) rfl,
   (C1_router_after_execution _).1 rfl⟩

/-- C2 counterexample: a concrete turn in which every execution attempt
fails.  The turn terminates with `finalAnswer` equal to the Analysis
stage's output, which does not contain the literal last error text and is
not the terminal apology — contradicting the claim that on exhaustion the
turn terminates with the apology in `finalAnswer`. -/
theorem C2_counterexample :
    (run oracleAllFail 12 (Node.guardrails, initState "top products")).2.final_answer =
      "The query could not be executed against the database." ∧
    pyContains (run oracleAllFail 12 (Node.guardrails, initState "top products")).2.final_answer
      "no such table: order_item" = false ∧
    (run oracleAllFail 12 (Node.guardrails, initState "top products")).2.final_answer ≠
      apologyText "SQL Execution Error: no such table: order_item" := by
  decide

/-- C2 (amended): the Error Correction stage checks the retry counter
against the ceiling before any backend call — above the ceiling its result
is independent of the backend response (no correction is generated) and it
writes into `finalAnswer` the apology, which names the attempt ceiling and
contains the literal last error text.  However, in the composed graph the
router sends a turn whose retry counter exceeds the ceiling directly to
Analysis, so when every execution attempt fails the turn's `finalAnswer` is
the Analysis stage's output, not the apology. -/
theorem C2_retry_exhaustion (o : Oracles) (uq : String) :
    (∀ (s : GraphState) (r1 r2 : ErrorCorrectionResponse),
      MAX_SQL_RETRY_ATTEMPTS < s.curr_iteration →
        error_correction_agent r1 s = error_correction_agent r2 s ∧
        (error_correction_agent r1 s).final_answer = apologyText s.error_message ∧
        pyContains (apologyText s.error_message) s.error_message = true ∧
        pyContains (apologyText s.error_message)
          ("after " ++ toString MAX_SQL_RETRY_ATTEMPTS ++ " attempts") = true) ∧
    (o.guardrails.is_greeting = false →
      o.guardrails.is_question_relavant = true →
      (∀ q, dbFails (o.db q) = true) →
      splitQueries (stripSqlFences o.sqlGen.sql_query) ≠ [] →
      (∀ k, splitQueries (stripSqlFences (o.correct k).corrected_sql_query) ≠ []) →
      (run o 12 (Node.guardrails, initState uq)).2.final_answer = analysisAnswer o.analyze) := by
  constructor
  · intro s r1 r2 h
    rw [error_correction_agent_of_high h, error_correction_agent_of_high h]
    exact ⟨rfl, rfl, pyContains_apology_error s.error_message,
      pyContains_apology_attempts s.error_message⟩
  · intro hg hr hdb hsql hcor
    obtain ⟨⟨sfin, hrun, _, hfin⟩, _⟩ := allFail_run o uq hg hr hdb hsql hcor
    rw [hrun]
    exact hfin

/-- Witness for C2 (amended) at a concrete turn and a concrete
over-the-ceiling state. -/
theorem C2_retry_exhaustion_witness :
    (error_correction_agent ⟨"SELECT 1"⟩
        { initState "q" with error_message := "E", curr_iteration := 4 } =
      error_correction_agent ⟨"SELECT 2"⟩
        { initState "q" with error_message := "E", curr_iteration := 4 }) ∧
    (run oracleAllFail 12 (Node.guardrails, initState "top products")).2.final_answer =
      analysisAnswer oracleAllFail.analyze :=
  ⟨((C2_retry_exhaustion oracleAllFail "top products").1 _ ⟨"SELECT 1"⟩ ⟨"SELECT 2"⟩
      (by decide)).1,
   (C2_retry_exhaustion oracleAllFail "top products").2 rfl rfl (fun _ => rfl) (by decide)
      (fun _ => by
        show splitQueries (stripSqlFences "SELECT name FROM order_items") ≠ []
        decide)⟩

/-- C3: every turn terminates (the run reaches the terminal node) and the
Execution stage runs at most ceiling + 1 = 4 times; when the guardrails
pass the question and every execution attempt errors, Execution runs
exactly ceiling + 1 times and the final retry counter exceeds the
ceiling. -/
theorem C3_execute_cycle_bounded (o : Oracles) (uq : String) :
    ((run o 12 (Node.guardrails, initState uq)).1 = Node.done ∧
      (runTrace o 12 (Node.guardrails, initState uq)).count Node.execute ≤
        MAX_SQL_RETRY_ATTEMPTS + 1) ∧
    (o.guardrails.is_greeting = false →
      o.guardrails.is_question_relavant = true →
      (∀ q, dbFails (o.db q) = true) →
      splitQueries (stripSqlFences o.sqlGen.sql_query) ≠ [] →
      (∀ k, splitQueries (stripSqlFences (o.correct k).corrected_sql_query) ≠ []) →
      (runTrace o 12 (Node.guardrails, initState uq)).count Node.execute =
          MAX_SQL_RETRY_ATTEMPTS + 1 ∧
        MAX_SQL_RETRY_ATTEMPTS <
          (run o 12 (Node.guardrails, initState uq)).2.curr_iteration) := by
  refine ⟨turn_bound o uq, ?_⟩
  intro hg hr hdb hsql hcor
  obtain ⟨⟨sfin, hrun, hcurr, _⟩, hcount⟩ := allFail_run o uq hg hr hdb hsql hcor
  refine ⟨hcount, ?_⟩
  rw [hrun]
  show MAX_SQL_RETRY_ATTEMPTS < sfin.curr_iteration
  rw [hcurr]
  decide

/-- Witness for C3 on a concrete always-failing turn. -/
theorem C3_execute_cycle_bounded_witness :
    (runTrace oracleAllFail 12 (Node.guardrails, initState "top products")).count Node.execute =
        MAX_SQL_RETRY_ATTEMPTS + 1 ∧
      MAX_SQL_RETRY_ATTEMPTS <
        (run oracleAllFail 12 (Node.guardrails, initState "top products")).2.curr_iteration :=
  (C3_execute_cycle_bounded oracleAllFail "top products").2 rfl rfl (fun _ => rfl)
    (by decide) (fun _ => by
      show splitQueries (stripSqlFences "SELECT name FROM order_items") ≠ []
      decide)

/-- C4: a turn classified as a greeting, or as out of scope, terminates at
the guardrails stage with the corresponding fixed reply in `finalAnswer`,
an empty `sqlQuery`, and a trace in which neither SQL Generation nor
Execution ever ran. -/
theorem C4_guardrails_short_circuit (o : Oracles) (uq : String) :
    (o.guardrails.is_greeting = true →
      (run o 12 (Node.guardrails, initState uq)).1 = Node.done ∧
      (run o 12 (Node.guardrails, initState uq)).2.final_answer = greetingReply ∧
      (run o 12 (Node.guardrails, initState uq)).2.sql_query_generated = "" ∧
      runTrace o 12 (Node.guardrails, initState uq) = [Node.guardrails]) ∧
    (o.guardrails.is_greeting = false → o.guardrails.is_question_relavant = false →
      (run o 12 (Node.guardrails, initState uq)).1 = Node.done ∧
      (run o 12 (Node.guardrails, initState uq)).2.final_answer = refusalReply ∧
      (run o 12 (Node.guardrails, initState uq)).2.sql_query_generated = "" ∧
      runTrace o 12 (Node.guardrails, initState uq) = [Node.guardrails]) := by
  constructor
  · intro hg
    have hgag := guardrails_agent_of_greeting (initState uq) hg
    have hfa : (guardrails_agent o.guardrails (initState uq)).final_answer ≠ "" := by
      rw [hgag]
      show greetingReply ≠ ""
      decide
    have hstep : step o Node.guardrails (initState uq) =
        (Node.done, guardrails_agent o.guardrails (initState uq)) := by
      show (route_after_guardrails _, _) = _
      rw [route_after_guardrails_of_final hfa]
    have hrun : run o 12 (Node.guardrails, initState uq) =
        (Node.done, guardrails_agent o.guardrails (initState uq)) := by
      rw [show (12 : Nat) = 11 + 1 from rfl, run_succ_of_ne o _ _ _ (by decide), hstep,
        run_done o _ _ rfl]
    have htr : runTrace o 12 (Node.guardrails, initState uq) = [Node.guardrails] := by
      rw [show (12 : Nat) = 11 + 1 from rfl, runTrace_succ_of_ne o _ _ _ (by decide), hstep,
        runTrace_done o _ _ rfl]
    refine ⟨by rw [hrun], ?_, ?_, htr⟩
    · rw [hrun]
      show (guardrails_agent o.guardrails (initState uq)).final_answer = _
      rw [hgag]
    · rw [hrun]
      show (guardrails_agent o.guardrails (initState uq)).sql_query_generated = _
      rw [hgag]
      rfl
  · intro hg hr
    have hgag := guardrails_agent_of_out_of_scope (initState uq) hg hr
    have hfa : (guardrails_agent o.guardrails (initState uq)).final_answer ≠ "" := by
      rw [hgag]
      show refusalReply ≠ ""
      decide
    have hstep : step o Node.guardrails (initState uq) =
        (Node.done, guardrails_agent o.guardrails (initState uq)) := by
      show (route_after_guardrails _, _) = _
      rw [route_after_guardrails_of_final hfa]
    have hrun : run o 12 (Node.guardrails, initState uq) =
        (Node.done, guardrails_agent o.guardrails (initState uq)) := by
      rw [show (12 : Nat) = 11 + 1 from rfl, run_succ_of_ne o _ _ _ (by decide), hstep,
        run_done o _ _ rfl]
    have htr : runTrace o 12 (Node.guardrails, initState uq) = [Node.guardrails] := by
      rw [show (12 : Nat) = 11 + 1 from rfl, runTrace_succ_of_ne o _ _ _ (by decide), hstep,
        runTrace_done o _ _ rfl]
    refine ⟨by rw [hrun], ?_, ?_, htr⟩
    · rw [hrun]
      show (guardrails_agent o.guardrails (initState uq)).final_answer = _
      rw [hgag]
    · rw [hrun]
      show (guardrails_agent o.guardrails (initState uq)).sql_query_generated = _
      rw [hgag]
      rfl

/-- Witness for C4 on a concrete greeting turn and a concrete out-of-scope
turn. -/
theorem C4_guardrails_short_circuit_witness :
    (run oracleGreeting 12 (Node.guardrails, initState "Hello")).2.final_answer =
        greetingReply ∧
    (run oracleGreeting 12 (Node.guardrails, initState "Hello")).2.sql_query_generated = "" ∧
    (run oracleOutOfScope 12 (Node.guardrails, initState "Tell me a joke")).2.final_answer =
        refusalReply ∧
    runTrace oracleOutOfScope 12 (Node.guardrails, initState "Tell me a joke") =
      [Node.guardrails] :=
  ⟨((C4_guardrails_short_circuit oracleGreeting "Hello").1 rfl).2.1,
   ((C4_guardrails_short_circuit oracleGreeting "Hello").1 rfl).2.2.1,
   ((C4_guardrails_short_circuit oracleOutOfScope "Tell me a joke").2 rfl rfl).2.1,
   ((C4_guardrails_short_circuit oracleOutOfScope "Tell me a joke").2 rfl rfl).2.2.2⟩

/-- C5: the Execution stage never touches `sqlQuery`; when a fragment
raises a database error (all fragments before it succeeding), the stage
stores the exception text in `errorMessage` — which therefore contains the
error text — and clears `queryResult`; and on successful execution it
clears `errorMessage`. -/
theorem C5_execution_error_state (db : String → DbResult) (s : GraphState) :
    (execute_sql db s).sql_query_generated = s.sql_query_generated ∧
    (∀ (qs1 : List String) (q : String) (qs2 : List String) (m : String),
      splitQueries s.sql_query_generated = qs1 ++ q :: qs2 →
      (∀ q' ∈ qs1, dbFails (db q') = false) →
      db q = DbResult.sqliteError m →
      (execute_sql db s).error_message = "SQL Execution Error: " ++ m ∧
      pyContains (execute_sql db s).error_message m = true ∧
      (execute_sql db s).result_for_sql_query = "") ∧
    (∀ rs, execResult db s.sql_query_generated = Except.ok rs →
      (execute_sql db s).error_message = "") := by
  refine ⟨execute_sql_sql db s, ?_, ?_⟩
  · intro qs1 q qs2 m hsplit hok hq
    have herr : execResult db s.sql_query_generated =
        .error ("SQL Execution Error: " ++ m) := by
      unfold execResult
      rw [hsplit]
      exact runQueries_first_error db _ m qs1 0 q qs2 hok hq
    rw [execute_sql_of_error herr]
    refine ⟨rfl, ?_, rfl⟩
    show pyContains ("SQL Execution Error: " ++ m) m = true
    exact pyContains_suffix "SQL Execution Error: " m
  · intro rs h
    rw [execute_sql_of_ok h]
    split <;> rfl

/-- Witness for C5: a failing statement keeps `sqlQuery`, fills
`errorMessage` with the exception text and clears `queryResult`; a
succeeding statement clears `errorMessage`. -/
theorem C5_execution_error_state_witness :
    (execute_sql dbSelect12
        { initState "w" with sql_query_generated := "SELECT 3" }).error_message =
      "SQL Execution Error: no such statement: SELECT 3" ∧
    (execute_sql dbSelect12
        { initState "w" with sql_query_generated := "SELECT 3" }).result_for_sql_query = "" ∧
    (execute_sql dbSelect12
        { initState "w" with sql_query_generated := "SELECT 3" }).sql_query_generated =
      "SELECT 3" ∧
    (execute_sql dbSelect12
        { initState "w" with sql_query_generated := "SELECT 1" }).error_message = "" :=
  ⟨((C5_execution_error_state dbSelect12 _).2.1 [] "SELECT 3" []
      "no such statement: SELECT 3" (by decide) (by simp) (by decide)).1,
   ((C5_execution_error_state dbSelect12 _).2.1 [] "SELECT 3" []
      "no such statement: SELECT 3" (by decide) (by simp) (by decide)).2.2,
   (C5_execution_error_state dbSelect12 _).1,
   (C5_execution_error_state dbSelect12 _).2.2 ["1"] (by rfl)⟩

/-- C6: the Execution stage splits `sqlQuery` on semicolons, trims, drops
empty fragments (shown on the spec's example), and when two fragments both
return rows the stored result is the two blocks in statement order, each
prefixed with its 1-based index and the fragment text; on the concrete
input "SELECT 1; SELECT 2;" the result contains the "Query 1" block
followed by the "Query 2" block. -/
theorem C6_multi_statement_blocks :
    splitQueries "SELECT 1; SELECT 2;" = ["SELECT 1", "SELECT 2"] ∧
    (∀ (db : String → DbResult) (s : GraphState) (q1 q2 f1 f2 : String),
      splitQueries s.sql_query_generated = [q1, q2] →
      db q1 = DbResult.rows f1 → db q2 = DbResult.rows f2 →
      (execute_sql db s).result_for_sql_query =
        "\n\n" ++ eqLine ++
          (("Query " ++ toString 1 ++ ":\n" ++ q1 ++ "\n\nResult:\n" ++ f1) ++ "\n\n" ++
            ("Query " ++ toString 2 ++ ":\n" ++ q2 ++ "\n\nResult:\n" ++ f2))) ∧
    (execute_sql dbSelect12
        { initState "demo" with
            sql_query_generated := "SELECT 1; SELECT 2;" }).result_for_sql_query =
      "\n\n" ++ eqLine ++
        "Query 1:\nSELECT 1\n\nResult:\n1" ++ "\n\n" ++ "Query 2:\nSELECT 2\n\nResult:\n2" := by
  refine ⟨by decide, ?_, by decide⟩
  intro db s q1 q2 f1 f2 hsp h1 h2
  unfold execute_sql execResult
  rw [hsp]
  rw [runQueries, h1, runQueries, h2, runQueries]
  rfl

/-- Witness for C6: the general two-fragment labelling applied to the
concrete example. -/
theorem C6_multi_statement_blocks_witness :
    (execute_sql dbSelect12
        { initState "demo" with
            sql_query_generated := "SELECT 1; SELECT 2;" }).result_for_sql_query =
      "\n\n" ++ eqLine ++
        (("Query " ++ toString 1 ++ ":\n" ++ "SELECT 1" ++ "\n\nResult:\n" ++ "1") ++ "\n\n" ++
          ("Query " ++ toString 2 ++ ":\n" ++ "SELECT 2" ++ "\n\nResult:\n" ++ "2")) :=
  C6_multi_statement_blocks.2.1 dbSelect12 _ "SELECT 1" "SELECT 2" "1" "2"
    (by decide) (by decide) (by decide)

/-- C7: when the result is empty, carries the "No results found" marker, or
an error is present, the Visualization Decision stage's output is
independent of the backend response (no call is consulted) and forces
`needsChart = false`, `chartType = "none"`; and any post-decision state
with `needsChart` false or `chartType = "none"` routes to the terminal
node, never to Visualization Generation. -/
theorem C7_viz_short_circuit :
    (∀ (r1 r2 : VisualizationDecisionResponse) (s : GraphState),
      (s.result_for_sql_query = "" ∨
        pyContains s.result_for_sql_query "No results found" = true ∨
        s.error_message ≠ "") →
      decide_visualization_agent r1 s = decide_visualization_agent r2 s ∧
      (decide_visualization_agent r1 s).needs_plotly_figure = false ∧
      (decide_visualization_agent r1 s).type_of_plotly_figure = "none") ∧
    (∀ s : GraphState,
      (s.needs_plotly_figure = false ∨ s.type_of_plotly_figure = "none") →
      should_visualize s = "skip" ∧ route_after_vizDecide s = Node.done) := by
  constructor
  · intro r1 r2 s h
    have hcond : (s.result_for_sql_query = "" ||
        pyContains s.result_for_sql_query "No results found" ||
        s.error_message ≠ "") = true := by
      rcases h with h | h | h <;> simp [h]
    unfold decide_visualization_agent
    rw [if_pos hcond, if_pos hcond]
    exact ⟨rfl, rfl, rfl⟩
  · intro s h
    have hskip : should_visualize s = "skip" := by
      unfold should_visualize
      rcases h with h | h
      · rw [h]
        rfl
      · rw [if_neg]
        simp [h]
    refine ⟨hskip, ?_⟩
    unfold route_after_vizDecide
    rw [hskip]
    rfl

/-- Witness for C7: a forced skip on an empty result, and the terminal
route on a "none" chart type. -/
theorem C7_viz_short_circuit_witness :
    decide_visualization_agent ⟨true, "bar"⟩ (initState "q") =
        decide_visualization_agent ⟨false, "none"⟩ (initState "q") ∧
    (decide_visualization_agent ⟨true, "bar"⟩ (initState "q")).needs_plotly_figure = false ∧
    route_after_vizDecide
        { initState "q" with needs_plotly_figure := true, type_of_plotly_figure := "none" } =
      Node.done :=
  ⟨(C7_viz_short_circuit.1 ⟨true, "bar"⟩ ⟨false, "none"⟩ (initState "q") (Or.inl rfl)).1,
   (C7_viz_short_circuit.1 ⟨true, "bar"⟩ ⟨false, "none"⟩ (initState "q") (Or.inl rfl)).2.1,
   (C7_viz_short_circuit.2
      { initState "q" with needs_plotly_figure := true, type_of_plotly_figure := "none" }
      (Or.inr rfl)).2⟩

/-- C8: from the Visualization Generation node the run always proceeds to
the terminal node with the final answer untouched, and on any failure
outcome of the stage's try-block (backend failure, failure executing the
generated code, or no chart object produced) the stage returns normally
with `chartSpecJSON` empty and `needsChart` false. -/
theorem C8_viz_failure_recovery (o : Oracles) (s : GraphState) :
    step o Node.vizGen s = (Node.done, visualization_agent o.viz s) ∧
    (visualization_agent o.viz s).final_answer = s.final_answer ∧
    (∀ outcome : VizOutcome, (∀ j, outcome ≠ VizOutcome.ok j) →
      (visualization_agent outcome s).plotly_figure_json_string = "" ∧
      (visualization_agent outcome s).needs_plotly_figure = false ∧
      (visualization_agent outcome s).final_answer = s.final_answer) := by
  refine ⟨rfl, (visualization_agent_fields o.viz s).1, ?_⟩
  intro outcome h
  cases outcome with
  | ok json => exact absurd rfl (h json)
  | llmFailure m => exact ⟨rfl, rfl, rfl⟩
  | execFailure m => exact ⟨rfl, rfl, rfl⟩
  | noFig => exact ⟨rfl, rfl, rfl⟩

/-- Witness for C8 on a concrete failure outcome. -/
theorem C8_viz_failure_recovery_witness :
    (visualization_agent VizOutcome.noFig
        { initState "q" with final_answer := "done" }).plotly_figure_json_string = "" ∧
    (visualization_agent VizOutcome.noFig
        { initState "q" with final_answer := "done" }).needs_plotly_figure = false ∧
    (visualization_agent VizOutcome.noFig
        { initState "q" with final_answer := "done" }).final_answer =
      ({ initState "q" with final_answer := "done" } : GraphState).final_answer :=
  (C8_viz_failure_recovery oracleAllFail { initState "q" with final_answer := "done" }).2.2
    VizOutcome.noFig (fun _ h => VizOutcome.noConfusion h)

/-- C9: evaluation of the Execution stage at the two-statement failing
input.  The delimiter line (80 "=" characters) appears once, prepended to
the whole result, and the two blocks are separated only by a blank line:
the suffix from "Query 1" on contains no "=" at all.  Python operator
precedence in line 80 of the source makes the spec's between-blocks
delimiter the join prefix instead. -/
theorem C9_delimiter_misplaced :
    (execute_sql dbSelect12
        { initState "demo" with
            sql_query_generated := "SELECT 1; SELECT 2;" }).result_for_sql_query =
      "\n\n" ++ eqLine ++
        "Query 1:\nSELECT 1\n\nResult:\n1\n\nQuery 2:\nSELECT 2\n\nResult:\n2" ∧
    pyContains "Query 1:\nSELECT 1\n\nResult:\n1\n\nQuery 2:\nSELECT 2\n\nResult:\n2" "=" =
      false := by
  decide

/-- C10: the Execution stage's result invariant — the error field is empty
exactly when the result field is non-empty; every execution failure yields
the exception message (always non-empty) with a cleared result; and a
statement with no non-empty fragment yields the fixed fallback result. -/
theorem C10_execution_invariant (db : String → DbResult) (s : GraphState) :
    ((execute_sql db s).error_message = "" ↔
      (execute_sql db s).result_for_sql_query ≠ "") ∧
    (∀ m, execResult db s.sql_query_generated = Except.error m →
      (execute_sql db s).error_message = m ∧ m ≠ "" ∧
      (execute_sql db s).result_for_sql_query = "") ∧
    (splitQueries s.sql_query_generated = [] →
      (execute_sql db s).error_message = "" ∧
      (execute_sql db s).result_for_sql_query =
        "Query executed successfully but returned no results.") := by
  refine ⟨execute_sql_error_iff db s, ?_, ?_⟩
  · intro m h
    rw [execute_sql_of_error h]
    exact ⟨rfl, execResult_error_ne_empty h, rfl⟩
  · intro hq
    have hok : execResult db s.sql_query_generated = .ok ([] : List String) := by
      unfold execResult
      rw [hq]
      rfl
    rw [execute_sql_of_ok hok]
    rw [if_neg (by simp)]
    exact ⟨rfl, rfl⟩

/-- Witness for C10: the invariant at a failing input, and the fallback at
an all-empty statement string. -/
theorem C10_execution_invariant_witness :
    (execute_sql dbSelect12
        { initState "w" with sql_query_generated := "SELECT 3" }).error_message =
      "SQL Execution Error: no such statement: SELECT 3" ∧
    "SQL Execution Error: no such statement: SELECT 3" ≠ "" ∧
    (execute_sql dbSelect12
        { initState "w" with sql_query_generated := "SELECT 3" }).result_for_sql_query = "" ∧
    (execute_sql dbSelect12
        { initState "w" with sql_query_generated := " ; ; " }).result_for_sql_query =
      "Query executed successfully but returned no results." :=
  ⟨((C10_execution_invariant dbSelect12
        { initState "w" with sql_query_generated := "SELECT 3" }).2.1
      "SQL Execution Error: no such statement: SELECT 3" (by rfl)).1,
   ((C10_execution_invariant dbSelect12
        { initState "w" with sql_query_generated := "SELECT 3" }).2.1
      "SQL Execution Error: no such statement: SELECT 3" (by rfl)).2.1,
   ((C10_execution_invariant dbSelect12
        { initState "w" with sql_query_generated := "SELECT 3" }).2.1
      "SQL Execution Error: no such statement: SELECT 3" (by rfl)).2.2,
   ((C10_execution_invariant dbSelect12
        { initState "w" with sql_query_generated := " ; ; " }).2.2 (by decide)).2⟩
